import Mathlib

/-!
Shallow embedding of the rate-limit header parsing crate.

The Rust sources are translated module by module:
* convert.rs        — decimal integer parsing helpers (to_usize / to_i64)
* reset_time.rs     — ResetTimeKind, ResetTime and its constructor and accessors
* error.rs          — the shared error enumeration
* variants.rs       — the ordered registry RATE_LIMIT_HEADERS
* headers/types.rs  — Vendor, RateLimitVariant, Limit, Used, Remaining
* casesensitive_headermap.rs — CaseSensitiveHeaderMap and conversion from http maps
* rfc6585/mod.rs    — the structured-header resolver RateLimit::new and its scans
* retryafter/mod.rs — the Retry-After resolver

Machine integers: usize is modelled as Nat with explicit reduction modulo
2 ^ 64 where overflow matters, i64 as Int restricted to its range.
Wall-clock time is passed explicitly as an Int of unix seconds.
Header values are modelled as Lean Strings; HeaderValue::to_str never fails
in the model (all modelled values are valid visible ASCII).
-/

namespace RateLimits

/-- Decidable equality of Except results, used to evaluate the resolvers on
concrete header stores. -/
instance {ε α : Type _} [DecidableEq ε] [DecidableEq α] :
    DecidableEq (Except ε α) :=
  fun a b =>
    match a, b with
    | Except.ok x, Except.ok y =>
      if h : x = y then Decidable.isTrue (by rw [h])
      else Decidable.isFalse (fun hh => h (Except.ok.inj hh))
    | Except.error e, Except.error f =>
      if h : e = f then Decidable.isTrue (by rw [h])
      else Decidable.isFalse (fun hh => h (Except.error.inj hh))
    | Except.ok _, Except.error _ =>
      Decidable.isFalse (fun hh => Except.noConfusion hh)
    | Except.error _, Except.ok _ =>
      Decidable.isFalse (fun hh => Except.noConfusion hh)

/-- Number of values of the 64-bit usize type (the crate targets 64-bit). -/
def USIZE : Nat := 2 ^ 64

/-- Whitespace test used by trimming, mirroring char::is_whitespace for the
ASCII range that header values can contain. -/
def isWsChar (c : Char) : Bool :=
  c == ' ' || c == '\t' || c == '\n' || c == '\r'

/-- Trim of str::trim restricted to ASCII whitespace. -/
def rustTrim (s : String) : String :=
  ⟨((s.data.dropWhile isWsChar).reverse.dropWhile isWsChar).reverse⟩

/-- Lowercase form of a string, character by character. -/
def lowerStr (s : String) : String :=
  ⟨s.data.map Char.toLower⟩

/-- Numeric value of a nonempty all-digit character list, none otherwise. -/
def digitsToNat (cs : List Char) : Option Nat :=
  if !cs.isEmpty && cs.all Char.isDigit then
    some (cs.foldl (fun a c => a * 10 + (c.toNat - 48)) 0)
  else
    none

/-- Drop one leading plus sign, as Rust integer parsing accepts. -/
def stripPlus (cs : List Char) : List Char :=
  match cs with
  | '+' :: rest => rest
  | _ => cs

/-- Models str::parse for usize: optional plus sign, decimal digits,
value below 2 ^ 64. -/
def parseUsize (s : String) : Option Nat :=
  match digitsToNat (stripPlus s.data) with
  | some n => if n < USIZE then some n else none
  | none => none

/-- Models str::parse for i64: optional sign, decimal digits, value within
the i64 range. -/
def parseI64 (s : String) : Option Int :=
  match s.data with
  | '-' :: rest =>
    match digitsToNat rest with
    | some n => if (n : Int) ≤ 2 ^ 63 then some (-(n : Int)) else none
    | none => none
  | cs =>
    match digitsToNat (stripPlus cs) with
    | some n => if (n : Int) < 2 ^ 63 then some (n : Int) else none
    | none => none

/-- The error enumeration of error.rs.  Payloads of the wrapped foreign
errors (ParseIntError, time parse and range errors) carry no information
the resolvers inspect, so they are modelled as bare constructors. -/
inductive Error where
  | missingLimit
  | missingUsed
  | missingRemaining
  | missingReset
  | missingRetryAfter
  | invalidRetryAfter (s : String)
  | headerWithoutColon (s : String)
  | invalidHeaderName
  | invalidHeaderValue
  | toStr
  | invalidValue
  | lockFail
  | parseFail
  | timeRange
deriving DecidableEq

/-- Models convert::to_usize: trim, then parse as usize, ParseIntError
becoming Error::InvalidValue. -/
def toUsize (value : String) : Except Error Nat :=
  match parseUsize (rustTrim value) with
  | some n => Except.ok n
  | none => Except.error Error.invalidValue

/-- Models convert::to_i64: trim, then parse as i64. -/
def toI64 (value : String) : Except Error Int :=
  match parseI64 (rustTrim value) with
  | some n => Except.ok n
  | none => Except.error Error.invalidValue

/-- The kind of rate limit reset time (reset_time.rs). -/
inductive ResetTimeKind where
  | seconds
  | timestamp
  | imfFixdate
  | iso8601
deriving DecidableEq

/-- Reset time of rate limiting (reset_time.rs).  An OffsetDateTime is
modelled by its unix timestamp in seconds. -/
inductive ResetTime where
  | seconds (n : Nat)
  | dateTime (t : Int)
deriving DecidableEq

/-- Modelled from the spec: OffsetDateTime::from_unix_timestamp of the
external time crate accepts exactly the timestamps whose calendar date lies
in the representable range (years -9999 to 9999); outside it the decoder
fails with the range error (spec section 4.1, InvalidTimeRange). -/
def odtFromUnix (t : Int) : Option Int :=
  if -377705116800 ≤ t ∧ t ≤ 253402300799 then some t else none

/-- Leap year test of the proleptic Gregorian calendar. -/
def isLeapYear (y : Int) : Bool :=
  decide ((y % 4 = 0 ∧ ¬y % 100 = 0) ∨ y % 400 = 0)

/-- Number of days in a month of the proleptic Gregorian calendar. -/
def daysInMonth (y : Int) (m : Nat) : Nat :=
  match m with
  | 1 => 31
  | 2 => if isLeapYear y then 29 else 28
  | 3 => 31
  | 4 => 30
  | 5 => 31
  | 6 => 30
  | 7 => 31
  | 8 => 31
  | 9 => 30
  | 10 => 31
  | 11 => 30
  | 12 => 31
  | _ => 0

/-- Days from the unix epoch to the given civil date (standard
era-of-400-years computation over the proleptic Gregorian calendar). -/
def daysFromCivil (y : Int) (m d : Nat) : Int :=
  let yy : Int := if m ≤ 2 then y - 1 else y
  let era : Int := yy / 400
  let yoe : Int := yy - era * 400
  let mp : Int := (m : Int) + (if 2 < m then -3 else 9)
  let doy : Int := (153 * mp + 2) / 5 + (d : Int) - 1
  let doe : Int := yoe * 365 + yoe / 4 - yoe / 100 + doy
  era * 146097 + doe - 719468

/-- Unix timestamp of a civil UTC date and time. -/
def civilToUnix (y : Int) (mo d h mi s : Nat) : Int :=
  daysFromCivil y mo d * 86400 + (h : Int) * 3600 + (mi : Int) * 60 + (s : Int)

/-- Month number of a three-letter English month name. -/
def monthVal (a b c : Char) : Option Nat :=
  match a, b, c with
  | 'J', 'a', 'n' => some 1
  | 'F', 'e', 'b' => some 2
  | 'M', 'a', 'r' => some 3
  | 'A', 'p', 'r' => some 4
  | 'M', 'a', 'y' => some 5
  | 'J', 'u', 'n' => some 6
  | 'J', 'u', 'l' => some 7
  | 'A', 'u', 'g' => some 8
  | 'S', 'e', 'p' => some 9
  | 'O', 'c', 't' => some 10
  | 'N', 'o', 'v' => some 11
  | 'D', 'e', 'c' => some 12
  | _, _, _ => none

/-- Test for a three-letter English weekday name. -/
def weekdayOk (a b c : Char) : Bool :=
  match a, b, c with
  | 'M', 'o', 'n' => true
  | 'T', 'u', 'e' => true
  | 'W', 'e', 'd' => true
  | 'T', 'h', 'u' => true
  | 'F', 'r', 'i' => true
  | 'S', 'a', 't' => true
  | 'S', 'u', 'n' => true
  | _, _, _ => false

/-- Value of two decimal digit characters. -/
def twoDigitsVal (a b : Char) : Option Nat :=
  if a.isDigit && b.isDigit then some ((a.toNat - 48) * 10 + (b.toNat - 48))
  else none

/-- Value of four decimal digit characters. -/
def fourDigitsVal (a b c d : Char) : Option Nat :=
  if a.isDigit && b.isDigit && c.isDigit && d.isDigit then
    some ((a.toNat - 48) * 1000 + (b.toNat - 48) * 100 + (c.toNat - 48) * 10
      + (d.toNat - 48))
  else none

/-- Modelled from the spec: the RFC 2822 / IMF-fixdate decoder of the
external time crate (spec section 4.1) over the fixed HTTP-date shape,
for example Tue, 15 Nov 1994 08:12:31 GMT, assuming UTC.  It stands in for
both Date::parse and PrimitiveDateTime::parse with the Rfc2822 format,
which are not part of the sources. -/
def rfc2822ToUnix (s : String) : Option Int :=
  match s.data with
  | [w1, w2, w3, ',', ' ', d1, d2, ' ', m1, m2, m3, ' ',
     y1, y2, y3, y4, ' ', h1, h2, ':', n1, n2, ':', s1, s2, ' ', 'G', 'M', 'T'] =>
    match monthVal m1 m2 m3, twoDigitsVal d1 d2, fourDigitsVal y1 y2 y3 y4,
        twoDigitsVal h1 h2, twoDigitsVal n1 n2, twoDigitsVal s1 s2 with
    | some mo, some d, some y, some h, some mi, some sec =>
      if weekdayOk w1 w2 w3 ∧ 1 ≤ d ∧ d ≤ daysInMonth (y : Int) mo
          ∧ h < 24 ∧ mi < 60 ∧ sec < 60 then
        some (civilToUnix (y : Int) mo d h mi sec)
      else none
    | _, _, _, _, _, _ => none
  | _ => none

/-- Modelled from the spec: the ISO 8601 decoder (spec section 4.1) over the
fixed compact profile YYYYMMDDTHHMMSSZ; the external time crate parser is
not part of the sources. -/
def iso8601ToUnix (s : String) : Option Int :=
  match s.data with
  | [y1, y2, y3, y4, mo1, mo2, d1, d2, 'T', h1, h2, n1, n2, s1, s2, 'Z'] =>
    match fourDigitsVal y1 y2 y3 y4, twoDigitsVal mo1 mo2, twoDigitsVal d1 d2,
        twoDigitsVal h1 h2, twoDigitsVal n1 n2, twoDigitsVal s1 s2 with
    | some y, some mo, some d, some h, some mi, some sec =>
      if 1 ≤ mo ∧ mo ≤ 12 ∧ 1 ≤ d ∧ d ≤ daysInMonth (y : Int) mo
          ∧ h < 24 ∧ mi < 60 ∧ sec < 60 then
        some (civilToUnix (y : Int) mo d h mi sec)
      else none
    | _, _, _, _, _, _ => none
  | _ => none

/-- ResetTime::new of reset_time.rs: decode one header value under the
declared kind. -/
def ResetTime.new (value : String) (kind : ResetTimeKind) : Except Error ResetTime :=
  match kind with
  | ResetTimeKind.seconds =>
    match toUsize value with
    | Except.ok n => Except.ok (ResetTime.seconds n)
    | Except.error e => Except.error e
  | ResetTimeKind.timestamp =>
    match toI64 value with
    | Except.ok t =>
      match odtFromUnix t with
      | some d => Except.ok (ResetTime.dateTime d)
      | none => Except.error Error.timeRange
    | Except.error e => Except.error e
  | ResetTimeKind.iso8601 =>
    match iso8601ToUnix value with
    | some t => Except.ok (ResetTime.dateTime t)
    | none => Except.error Error.parseFail
  | ResetTimeKind.imfFixdate =>
    match rfc2822ToUnix value with
    | some t => Except.ok (ResetTime.dateTime t)
    | none => Except.error Error.parseFail

/-- ResetTime::seconds of reset_time.rs with the wall clock passed
explicitly: the whole-second difference is computed as i64 and cast with
the as operator to usize, which reduces the value modulo 2 ^ 64. -/
def ResetTime.secondsAt (r : ResetTime) (now : Int) : Nat :=
  match r with
  | ResetTime.seconds s => s
  | ResetTime.dateTime d => ((d - now) % (USIZE : Int)).toNat

/-- ResetTime::duration of reset_time.rs with the wall clock passed
explicitly; a Duration is modelled as its signed number of seconds. -/
def ResetTime.durationAt (r : ResetTime) (now : Int) : Int :=
  match r with
  | ResetTime.seconds s => (s : Int)
  | ResetTime.dateTime d => d - now

/-- Known vendors of rate limit headers (headers/types.rs). -/
inductive Vendor where
  | standard
  | reddit
  | github
  | twitter
  | vimeo
  | gitlab
  | akamai
deriving DecidableEq

/-- A variant defines all relevant fields for parsing headers from a given
vendor (headers/types.rs); a window Duration is modelled as its number of
seconds. -/
structure RateLimitVariant where
  vendor : Vendor
  duration : Option Int
  limit_header : Option String
  used_header : Option String
  remaining_header : String
  reset_header : String
  reset_kind : ResetTimeKind
deriving DecidableEq

/-- Registry entry for the polli-ratelimit-headers-00 draft (variants.rs). -/
def standardVariant : RateLimitVariant :=
  { vendor := Vendor.standard
    duration := none
    limit_header := some "RateLimit-Limit"
    used_header := none
    remaining_header := "Ratelimit-Remaining"
    reset_header := "Ratelimit-Reset"
    reset_kind := ResetTimeKind.seconds }

/-- Registry entry for Reddit (variants.rs). -/
def redditVariant : RateLimitVariant :=
  { vendor := Vendor.reddit
    duration := some 600
    limit_header := none
    used_header := some "X-Ratelimit-Used"
    remaining_header := "X-Ratelimit-Remaining"
    reset_header := "X-Ratelimit-Reset"
    reset_kind := ResetTimeKind.seconds }

/-- Registry entry for Github (variants.rs). -/
def githubVariant : RateLimitVariant :=
  { vendor := Vendor.github
    duration := some 3600
    limit_header := some "x-ratelimit-limit"
    used_header := none
    remaining_header := "x-ratelimit-remaining"
    reset_header := "x-ratelimit-reset"
    reset_kind := ResetTimeKind.timestamp }

/-- Registry entry for Twitter (variants.rs). -/
def twitterVariant : RateLimitVariant :=
  { vendor := Vendor.twitter
    duration := some 900
    limit_header := some "x-rate-limit-limit"
    used_header := none
    remaining_header := "x-rate-limit-remaining"
    reset_header := "x-rate-limit-reset"
    reset_kind := ResetTimeKind.timestamp }

/-- Registry entry for Vimeo (variants.rs). -/
def vimeoVariant : RateLimitVariant :=
  { vendor := Vendor.vimeo
    duration := some 60
    limit_header := some "X-RateLimit-Limit"
    used_header := none
    remaining_header := "X-RateLimit-Remaining"
    reset_header := "X-RateLimit-Reset"
    reset_kind := ResetTimeKind.imfFixdate }

/-- Registry entry for Gitlab (variants.rs). -/
def gitlabVariant : RateLimitVariant :=
  { vendor := Vendor.gitlab
    duration := some 60
    limit_header := some "RateLimit-Limit"
    used_header := some "RateLimit-Observed"
    remaining_header := "RateLimit-Remaining"
    reset_header := "RateLimit-Reset"
    reset_kind := ResetTimeKind.timestamp }

/-- Registry entry for Akamai (variants.rs). -/
def akamaiVariant : RateLimitVariant :=
  { vendor := Vendor.akamai
    duration := some 60
    limit_header := some "X-RateLimit-Limit"
    used_header := none
    remaining_header := "X-RateLimit-Remaining"
    reset_header := "X-RateLimit-Next"
    reset_kind := ResetTimeKind.iso8601 }

/-- The ordered registry of variants.rs; variants are checked in order and
header-name casing is significant. -/
def RATE_LIMIT_HEADERS : List RateLimitVariant :=
  [standardVariant, redditVariant, githubVariant, twitterVariant,
   vimeoVariant, gitlabVariant, akamaiVariant]

/-- The case-sensitive header map of casesensitive_headermap.rs, a mapping
from exact header name to value. -/
structure CaseSensitiveHeaderMap where
  entries : List (String × String)
deriving DecidableEq

/-- Exact-key lookup of CaseSensitiveHeaderMap::get. -/
def CaseSensitiveHeaderMap.get (m : CaseSensitiveHeaderMap) (k : String) :
    Option String :=
  (m.entries.find? (fun p => p.1 == k)).map (fun p => p.2)

/-- Limit of headers/types.rs. -/
structure Limit where
  count : Nat
deriving DecidableEq

/-- Limit::new: parse a trimmed decimal count. -/
def Limit.new (value : String) : Except Error Limit :=
  match toUsize value with
  | Except.ok n => Except.ok ⟨n⟩
  | Except.error e => Except.error e

/-- Used of headers/types.rs. -/
structure Used where
  count : Nat
deriving DecidableEq

/-- Used::new: parse a trimmed decimal count. -/
def Used.new (value : String) : Except Error Used :=
  match toUsize value with
  | Except.ok n => Except.ok ⟨n⟩
  | Except.error e => Except.error e

/-- Remaining of headers/types.rs. -/
structure Remaining where
  count : Nat
deriving DecidableEq

/-- Remaining::new: parse a trimmed decimal count. -/
def Remaining.new (value : String) : Except Error Remaining :=
  match toUsize value with
  | Except.ok n => Except.ok ⟨n⟩
  | Except.error e => Except.error e

/-- The for-loop of rfc6585 RateLimit::get_rate_limit_header: first variant
in registry order whose populated limit header is present in the map. -/
def findLimitEntry (m : CaseSensitiveHeaderMap) :
    List RateLimitVariant → Option (String × RateLimitVariant)
  | [] => none
  | v :: rest =>
    match v.limit_header with
    | some name =>
      match m.get name with
      | some value => some (value, v)
      | none => findLimitEntry m rest
    | none => findLimitEntry m rest

/-- rfc6585 RateLimit::get_rate_limit_header: scan the whole registry for
any variant whose limit header is present. -/
def getRateLimitHeader (m : CaseSensitiveHeaderMap) :
    Except Error (String × RateLimitVariant) :=
  match findLimitEntry m RATE_LIMIT_HEADERS with
  | some r => Except.ok r
  | none => Except.error Error.missingLimit

/-- The for-loop of rfc6585 RateLimit::get_used_header. -/
def findUsedEntry (m : CaseSensitiveHeaderMap) :
    List RateLimitVariant → Option (String × RateLimitVariant)
  | [] => none
  | v :: rest =>
    match v.used_header with
    | some name =>
      match m.get name with
      | some value => some (value, v)
      | none => findUsedEntry m rest
    | none => findUsedEntry m rest

/-- rfc6585 RateLimit::get_used_header: scan the whole registry for any
variant whose used header is present. -/
def getUsedHeader (m : CaseSensitiveHeaderMap) :
    Except Error (String × RateLimitVariant) :=
  match findUsedEntry m RATE_LIMIT_HEADERS with
  | some r => Except.ok r
  | none => Except.error Error.missingUsed

/-- The for-loop of rfc6585 RateLimit::get_remaining_header; note the source
returns only the header value, not the matched variant. -/
def findRemainingEntry (m : CaseSensitiveHeaderMap) :
    List RateLimitVariant → Option String
  | [] => none
  | v :: rest =>
    match m.get v.remaining_header with
    | some value => some value
    | none => findRemainingEntry m rest

/-- rfc6585 RateLimit::get_remaining_header: scan the whole registry for any
variant whose remaining header is present. -/
def getRemainingHeader (m : CaseSensitiveHeaderMap) : Except Error String :=
  match findRemainingEntry m RATE_LIMIT_HEADERS with
  | some r => Except.ok r
  | none => Except.error Error.missingRemaining

/-- The for-loop of rfc6585 RateLimit::get_reset_header. -/
def findResetEntry (m : CaseSensitiveHeaderMap) :
    List RateLimitVariant → Option (String × ResetTimeKind)
  | [] => none
  | v :: rest =>
    match m.get v.reset_header with
    | some value => some (value, v.reset_kind)
    | none => findResetEntry m rest

/-- rfc6585 RateLimit::get_reset_header: scan the whole registry for any
variant whose reset header is present, returning that variant's kind. -/
def getResetHeader (m : CaseSensitiveHeaderMap) :
    Except Error (String × ResetTimeKind) :=
  match findResetEntry m RATE_LIMIT_HEADERS with
  | some r => Except.ok r
  | none => Except.error Error.missingReset

namespace Rfc6585

/-- HTTP rate limits as parsed from header values (rfc6585/mod.rs). -/
structure RateLimit where
  limit : Nat
  remaining : Nat
  reset : ResetTime
  window : Option Int
  vendor : Vendor
deriving DecidableEq

/-- Tail of rfc6585 RateLimit::new after the limit has been determined:
look up and decode the reset header, then assemble the result.  The usize
addition performed by the caller is reduced modulo 2 ^ 64 (release-profile
overflow semantics). -/
def finishWithReset (m : CaseSensitiveHeaderMap) (limit : Limit)
    (remaining : Remaining) (variant : RateLimitVariant) :
    Except Error RateLimit :=
  match getResetHeader m with
  | Except.error e => Except.error e
  | Except.ok (value, kind) =>
    match ResetTime.new value kind with
    | Except.error e => Except.error e
    | Except.ok reset =>
      Except.ok
        { limit := limit.count
          remaining := remaining.count
          reset := reset
          window := variant.duration
          vendor := variant.vendor }

/-- rfc6585 RateLimit::new: look up a remaining value anywhere in the
registry, then a limit value anywhere, else a used value anywhere (deriving
the limit as used + remaining), then a reset value anywhere. -/
def RateLimit.new (m : CaseSensitiveHeaderMap) : Except Error RateLimit :=
  match getRemainingHeader m with
  | Except.error e => Except.error e
  | Except.ok remVal =>
    match Remaining.new remVal with
    | Except.error e => Except.error e
    | Except.ok remaining =>
      match getRateLimitHeader m with
      | Except.ok (limVal, variant) =>
        (match Limit.new limVal with
         | Except.error e => Except.error e
         | Except.ok limit => finishWithReset m limit remaining variant)
      | Except.error _ =>
        match getUsedHeader m with
        | Except.ok (usedVal, variant) =>
          (match Used.new usedVal with
           | Except.error e => Except.error e
           | Except.ok used =>
             finishWithReset m ⟨(used.count + remaining.count) % USIZE⟩
               remaining variant)
        | Except.error _ => Except.error Error.missingUsed

end Rfc6585

/-- retryafter RateLimit::get_retry_after_header: the canonical
capitalization first, then the all-lowercase spelling. -/
def getRetryAfterHeader (m : CaseSensitiveHeaderMap) : Option String :=
  (m.get "Retry-After").orElse (fun _ => m.get "retry-after")

namespace RetryAfter

/-- Rate limit parsed from the Retry-After header (retryafter/mod.rs). -/
structure RateLimit where
  reset : ResetTime
deriving DecidableEq

/-- retryafter RateLimit::new: if the value parses as an RFC 2822 date,
decode it as an IMF-fixdate reset time, otherwise decode it as seconds. -/
def RateLimit.new (m : CaseSensitiveHeaderMap) : Except Error RateLimit :=
  match getRetryAfterHeader m with
  | some value =>
    if (rfc2822ToUnix value).isSome then
      match ResetTime.new value ResetTimeKind.imfFixdate with
      | Except.ok reset => Except.ok ⟨reset⟩
      | Except.error e => Except.error e
    else
      match ResetTime.new value ResetTimeKind.seconds with
      | Except.ok reset => Except.ok ⟨reset⟩
      | Except.error e => Except.error e
  | none => Except.error Error.missingRetryAfter

end RetryAfter

/-- Modelled from the spec: the public Combinator result type (spec section
4.5); the facade enum with variants Rfc6585 and RetryAfter is not among the
sources, only its caller in tests/parse.rs is. -/
inductive CombinedRateLimit where
  | rfc6585 (r : Rfc6585.RateLimit)
  | retryAfter (r : RetryAfter.RateLimit)
deriving DecidableEq

/-- Reset time reported by a combined result. -/
def CombinedRateLimit.reset : CombinedRateLimit → ResetTime
  | CombinedRateLimit.rfc6585 r => r.reset
  | CombinedRateLimit.retryAfter r => r.reset

/-- Modelled from the spec: the public Combinator entry point (spec section
4.5), not among the sources.  Both resolvers run; when both succeed the
candidate whose reset lies further in the future (larger seconds remaining
from the given instant) wins; when one succeeds it wins; when both fail the
structured-path error surfaces. -/
def CombinedRateLimit.new (m : CaseSensitiveHeaderMap) (now : Int) :
    Except Error CombinedRateLimit :=
  match Rfc6585.RateLimit.new m, RetryAfter.RateLimit.new m with
  | Except.ok a, Except.ok b =>
    if ResetTime.secondsAt a.reset now < ResetTime.secondsAt b.reset now then
      Except.ok (CombinedRateLimit.retryAfter b)
    else
      Except.ok (CombinedRateLimit.rfc6585 a)
  | Except.ok a, Except.error _ => Except.ok (CombinedRateLimit.rfc6585 a)
  | Except.error _, Except.ok b => Except.ok (CombinedRateLimit.retryAfter b)
  | Except.error e, Except.error _ => Except.error e

/-- Modelled from the spec: the case-normalizing header store (spec section
6) produced by the external http crate, whose header names are kept in a
normalized all-lowercase form; entries pair a stored name with a value and
every stored name is its own lowercase form. -/
structure HttpHeaderMap where
  entries : List (String × String)
  lower_keys : ∀ p ∈ entries, lowerStr p.1 = p.1

/-- Conversion From HeaderMap for CaseSensitiveHeaderMap
(casesensitive_headermap.rs): each stored name and value is inserted
unchanged. -/
def ofHttpHeaderMap (h : HttpHeaderMap) : CaseSensitiveHeaderMap :=
  ⟨h.entries⟩

/-- Sample case-normalized header store, as produced by the http crate for
the test in tests/parse.rs. -/
def sampleHttpMap : HttpHeaderMap :=
  ⟨[("x-ratelimit-limit", "5000"), ("x-ratelimit-remaining", "4987"),
    ("x-ratelimit-reset", "1350085394")], by decide⟩

/-- Header blob holding exactly the Standard variant's populated headers. -/
def stdBlob (sl sr st : String) : CaseSensitiveHeaderMap :=
  ⟨[("RateLimit-Limit", sl), ("Ratelimit-Remaining", sr),
    ("Ratelimit-Reset", st)]⟩

/-- Header blob holding exactly the Reddit variant's populated headers. -/
def redditBlob (su sr st : String) : CaseSensitiveHeaderMap :=
  ⟨[("X-Ratelimit-Used", su), ("X-Ratelimit-Remaining", sr),
    ("X-Ratelimit-Reset", st)]⟩

/-- Header blob holding exactly the Github variant's populated headers. -/
def githubBlob (sl sr st : String) : CaseSensitiveHeaderMap :=
  ⟨[("x-ratelimit-limit", sl), ("x-ratelimit-remaining", sr),
    ("x-ratelimit-reset", st)]⟩

/-- Header blob holding exactly the Twitter variant's populated headers. -/
def twitterBlob (sl sr st : String) : CaseSensitiveHeaderMap :=
  ⟨[("x-rate-limit-limit", sl), ("x-rate-limit-remaining", sr),
    ("x-rate-limit-reset", st)]⟩

/-- Header blob holding exactly the Vimeo variant's populated headers. -/
def vimeoBlob (sl sr st : String) : CaseSensitiveHeaderMap :=
  ⟨[("X-RateLimit-Limit", sl), ("X-RateLimit-Remaining", sr),
    ("X-RateLimit-Reset", st)]⟩

/-- Header blob holding exactly the Gitlab variant's populated headers,
including both the limit and the observed header. -/
def gitlabBlob (sl so sr st : String) : CaseSensitiveHeaderMap :=
  ⟨[("RateLimit-Limit", sl), ("RateLimit-Observed", so),
    ("RateLimit-Remaining", sr), ("RateLimit-Reset", st)]⟩

/-- Header blob holding exactly the Akamai variant's populated headers. -/
def akamaiBlob (sl sr st : String) : CaseSensitiveHeaderMap :=
  ⟨[("X-RateLimit-Limit", sl), ("X-RateLimit-Remaining", sr),
    ("X-RateLimit-Next", st)]⟩

/-- Gitlab-style blob with a used header but no limit header. -/
def gitlabUsedBlob (su sr st : String) : CaseSensitiveHeaderMap :=
  ⟨[("RateLimit-Observed", su), ("RateLimit-Remaining", sr),
    ("RateLimit-Reset", st)]⟩

/-- Blob mixing headers of three vendors: Github's remaining header,
Standard's limit header and Reddit's reset header. -/
def mixedBlob (sr sl st : String) : CaseSensitiveHeaderMap :=
  ⟨[("x-ratelimit-remaining", sr), ("RateLimit-Limit", sl),
    ("X-Ratelimit-Reset", st)]⟩

/-- The Reddit-style blob of the Retry-After precedence scenario, with both
a structured reset value and a Retry-After value. -/
def combinedBlob (st sa : String) : CaseSensitiveHeaderMap :=
  ⟨[("X-Ratelimit-Used", "100"), ("X-Ratelimit-Remaining", "22"),
    ("X-Ratelimit-Reset", st), ("Retry-After", sa)]⟩

/-- A lookup in the store built from a case-normalized header map can only
succeed on a key that is its own lowercase form. -/
theorem find_entry_none_of_not_lower (l : List (String × String)) (k : String)
    (hl : ∀ p ∈ l, lowerStr p.1 = p.1) (hk : lowerStr k ≠ k) :
    l.find? (fun p => p.1 == k) = none := by
  induction l with
  | nil => rfl
  | cons p t ih =>
    have hp : lowerStr p.1 = p.1 := hl p (List.mem_cons_self p t)
    have ht : ∀ q ∈ t, lowerStr q.1 = q.1 :=
      fun q hq => hl q (List.mem_cons_of_mem p hq)
    rw [List.find?_cons]
    cases hbeq : (p.1 == k) with
    | false => simpa using ih ht
    | true =>
      exfalso
      have hek : p.1 = k := eq_of_beq hbeq
      exact hk (hek ▸ hp)

/-- Any key that is not its own lowercase form is absent from the converted
store. -/
theorem get_ofHttpHeaderMap_not_lower (h : HttpHeaderMap) (k : String)
    (hk : lowerStr k ≠ k) : (ofHttpHeaderMap h).get k = none := by
  unfold ofHttpHeaderMap CaseSensitiveHeaderMap.get
  rw [find_entry_none_of_not_lower h.entries k h.lower_keys hk]
  rfl

/-- C3: the claim that every shipped registry entry populates exactly one of
limit_header and used_header is false: the list contains an entry (Gitlab)
that populates both. -/
theorem claim_c3_counterexample :
    (RATE_LIMIT_HEADERS.any fun v =>
      v.limit_header.isSome && v.used_header.isSome) = true := by
  decide

/-- C3 (amended): every shipped registry entry populates at least one of
limit_header and used_header, and exactly one entry, the Gitlab entry,
populates both. -/
theorem claim_c3_amended :
    (RATE_LIMIT_HEADERS.all fun v =>
      v.limit_header.isSome || v.used_header.isSome) = true
    ∧ ((RATE_LIMIT_HEADERS.filter fun v =>
        v.limit_header.isSome && v.used_header.isSome).map
        fun v => v.vendor) = [Vendor.gitlab] := by
  decide

/-- C10: for a DateTime reset earlier than the current instant, seconds()
casts the negative whole-second difference to usize, producing the
difference modulo 2 ^ 64 (a value just below 2 ^ 64) rather than 0, while
duration() on the same value is negative. -/
theorem claim_c10_seconds_wraps (d now : Int) (hlt : d < now)
    (hrange : now - d < (USIZE : Int)) :
    ResetTime.secondsAt (ResetTime.dateTime d) now = USIZE - (now - d).toNat
    ∧ ResetTime.secondsAt (ResetTime.dateTime d) now ≠ 0
    ∧ ResetTime.durationAt (ResetTime.dateTime d) now < 0 := by
  refine ⟨?_, ?_, ?_⟩ <;>
    simp only [ResetTime.secondsAt, ResetTime.durationAt, USIZE] at * <;>
    omega

/-- C10 witness: a reset one hundred seconds in the past. -/
theorem claim_c10_witness :
    ResetTime.secondsAt (ResetTime.dateTime 0) 100 = USIZE - 100
    ∧ ResetTime.secondsAt (ResetTime.dateTime 0) 100 ≠ 0
    ∧ ResetTime.durationAt (ResetTime.dateTime 0) 100 < 0 :=
  claim_c10_seconds_wraps 0 100 (by decide) (by decide)

/-- C9: conversion from the case-normalized http header map yields a store
whose keys are all lowercase; every registry variant other than Github and
Twitter has some uppercase letter in each of its configured header names,
so none of its headers can ever be found in such a store, while the Github
and Twitter names are entirely lowercase. -/
theorem claim_c9_lowercase_conversion :
    (∀ (h : HttpHeaderMap), ∀ p ∈ (ofHttpHeaderMap h).entries,
      lowerStr p.1 = p.1)
    ∧ (∀ (h : HttpHeaderMap) (v : RateLimitVariant), v ∈ RATE_LIMIT_HEADERS →
      ¬v.vendor = Vendor.github → ¬v.vendor = Vendor.twitter →
      (ofHttpHeaderMap h).get v.remaining_header = none
      ∧ (ofHttpHeaderMap h).get v.reset_header = none
      ∧ v.limit_header.bind (ofHttpHeaderMap h).get = none
      ∧ v.used_header.bind (ofHttpHeaderMap h).get = none)
    ∧ (lowerStr "x-ratelimit-limit" = "x-ratelimit-limit"
      ∧ lowerStr "x-ratelimit-remaining" = "x-ratelimit-remaining"
      ∧ lowerStr "x-ratelimit-reset" = "x-ratelimit-reset"
      ∧ lowerStr "x-rate-limit-limit" = "x-rate-limit-limit"
      ∧ lowerStr "x-rate-limit-remaining" = "x-rate-limit-remaining"
      ∧ lowerStr "x-rate-limit-reset" = "x-rate-limit-reset") := by
  refine ⟨fun h => h.lower_keys, ?_, by decide⟩
  intro h v hv hg ht
  simp only [RATE_LIMIT_HEADERS, List.mem_cons, List.not_mem_nil, or_false]
    at hv
  rcases hv with rfl | rfl | rfl | rfl | rfl | rfl | rfl
  · exact ⟨get_ofHttpHeaderMap_not_lower h _ (by decide),
      get_ofHttpHeaderMap_not_lower h _ (by decide),
      get_ofHttpHeaderMap_not_lower h _ (by decide), rfl⟩
  · exact ⟨get_ofHttpHeaderMap_not_lower h _ (by decide),
      get_ofHttpHeaderMap_not_lower h _ (by decide),
      rfl, get_ofHttpHeaderMap_not_lower h _ (by decide)⟩
  · exact absurd rfl hg
  · exact absurd rfl ht
  · exact ⟨get_ofHttpHeaderMap_not_lower h _ (by decide),
      get_ofHttpHeaderMap_not_lower h _ (by decide),
      get_ofHttpHeaderMap_not_lower h _ (by decide), rfl⟩
  · exact ⟨get_ofHttpHeaderMap_not_lower h _ (by decide),
      get_ofHttpHeaderMap_not_lower h _ (by decide),
      get_ofHttpHeaderMap_not_lower h _ (by decide),
      get_ofHttpHeaderMap_not_lower h _ (by decide)⟩
  · exact ⟨get_ofHttpHeaderMap_not_lower h _ (by decide),
      get_ofHttpHeaderMap_not_lower h _ (by decide),
      get_ofHttpHeaderMap_not_lower h _ (by decide), rfl⟩

/-- C9 witness: the Standard variant is unreachable from the sample
converted store. -/
theorem claim_c9_witness :
    (ofHttpHeaderMap sampleHttpMap).get "Ratelimit-Remaining" = none
    ∧ (ofHttpHeaderMap sampleHttpMap).get "Ratelimit-Reset" = none
    ∧ (some "RateLimit-Limit").bind (ofHttpHeaderMap sampleHttpMap).get = none
    ∧ (none : Option String).bind (ofHttpHeaderMap sampleHttpMap).get = none :=
  claim_c9_lowercase_conversion.2.1 sampleHttpMap standardVariant
    (by decide) (by decide) (by decide)

/-- Resolution of a Standard-only blob with syntactically valid values. -/
theorem standard_blob_eval (sl sr st : String) (l r : Nat) (t : ResetTime)
    (hl : Limit.new sl = Except.ok ⟨l⟩) (hr : Remaining.new sr = Except.ok ⟨r⟩)
    (ht : ResetTime.new st ResetTimeKind.seconds = Except.ok t) :
    Rfc6585.RateLimit.new (stdBlob sl sr st)
      = Except.ok ⟨l, r, t, none, Vendor.standard⟩ := by
  have e1 : getRemainingHeader (stdBlob sl sr st) = Except.ok sr := rfl
  have e2 : getRateLimitHeader (stdBlob sl sr st)
      = Except.ok (sl, standardVariant) := rfl
  have e3 : getResetHeader (stdBlob sl sr st)
      = Except.ok (st, ResetTimeKind.seconds) := rfl
  simp only [Rfc6585.RateLimit.new, e1, hr, e2, hl, Rfc6585.finishWithReset,
    e3, ht]
  rfl

/-- Resolution of a Reddit-only blob with syntactically valid values. -/
theorem reddit_blob_eval (su sr st : String) (u r : Nat) (t : ResetTime)
    (hu : Used.new su = Except.ok ⟨u⟩) (hr : Remaining.new sr = Except.ok ⟨r⟩)
    (ht : ResetTime.new st ResetTimeKind.seconds = Except.ok t) :
    Rfc6585.RateLimit.new (redditBlob su sr st)
      = Except.ok ⟨(u + r) % USIZE, r, t, some 600, Vendor.reddit⟩ := by
  have e1 : getRemainingHeader (redditBlob su sr st) = Except.ok sr := rfl
  have e2 : getRateLimitHeader (redditBlob su sr st)
      = Except.error Error.missingLimit := rfl
  have e3 : getUsedHeader (redditBlob su sr st)
      = Except.ok (su, redditVariant) := rfl
  have e4 : getResetHeader (redditBlob su sr st)
      = Except.ok (st, ResetTimeKind.seconds) := rfl
  simp only [Rfc6585.RateLimit.new, e1, hr, e2, e3, hu,
    Rfc6585.finishWithReset, e4, ht]
  rfl

/-- Resolution of a Github-only blob with syntactically valid values. -/
theorem github_blob_eval (sl sr st : String) (l r : Nat) (t : ResetTime)
    (hl : Limit.new sl = Except.ok ⟨l⟩) (hr : Remaining.new sr = Except.ok ⟨r⟩)
    (ht : ResetTime.new st ResetTimeKind.timestamp = Except.ok t) :
    Rfc6585.RateLimit.new (githubBlob sl sr st)
      = Except.ok ⟨l, r, t, some 3600, Vendor.github⟩ := by
  have e1 : getRemainingHeader (githubBlob sl sr st) = Except.ok sr := rfl
  have e2 : getRateLimitHeader (githubBlob sl sr st)
      = Except.ok (sl, githubVariant) := rfl
  have e3 : getResetHeader (githubBlob sl sr st)
      = Except.ok (st, ResetTimeKind.timestamp) := rfl
  simp only [Rfc6585.RateLimit.new, e1, hr, e2, hl, Rfc6585.finishWithReset,
    e3, ht]
  rfl

/-- Resolution of a Twitter-only blob with syntactically valid values. -/
theorem twitter_blob_eval (sl sr st : String) (l r : Nat) (t : ResetTime)
    (hl : Limit.new sl = Except.ok ⟨l⟩) (hr : Remaining.new sr = Except.ok ⟨r⟩)
    (ht : ResetTime.new st ResetTimeKind.timestamp = Except.ok t) :
    Rfc6585.RateLimit.new (twitterBlob sl sr st)
      = Except.ok ⟨l, r, t, some 900, Vendor.twitter⟩ := by
  have e1 : getRemainingHeader (twitterBlob sl sr st) = Except.ok sr := rfl
  have e2 : getRateLimitHeader (twitterBlob sl sr st)
      = Except.ok (sl, twitterVariant) := rfl
  have e3 : getResetHeader (twitterBlob sl sr st)
      = Except.ok (st, ResetTimeKind.timestamp) := rfl
  simp only [Rfc6585.RateLimit.new, e1, hr, e2, hl, Rfc6585.finishWithReset,
    e3, ht]
  rfl

/-- Resolution of a Vimeo-only blob with syntactically valid values. -/
theorem vimeo_blob_eval (sl sr st : String) (l r : Nat) (t : ResetTime)
    (hl : Limit.new sl = Except.ok ⟨l⟩) (hr : Remaining.new sr = Except.ok ⟨r⟩)
    (ht : ResetTime.new st ResetTimeKind.imfFixdate = Except.ok t) :
    Rfc6585.RateLimit.new (vimeoBlob sl sr st)
      = Except.ok ⟨l, r, t, some 60, Vendor.vimeo⟩ := by
  have e1 : getRemainingHeader (vimeoBlob sl sr st) = Except.ok sr := rfl
  have e2 : getRateLimitHeader (vimeoBlob sl sr st)
      = Except.ok (sl, vimeoVariant) := rfl
  have e3 : getResetHeader (vimeoBlob sl sr st)
      = Except.ok (st, ResetTimeKind.imfFixdate) := rfl
  simp only [Rfc6585.RateLimit.new, e1, hr, e2, hl, Rfc6585.finishWithReset,
    e3, ht]
  rfl

/-- Resolution of a Gitlab-only blob: the limit scan hits the Standard
entry first, so the result is attributed to the Standard vendor. -/
theorem gitlab_blob_eval (sl so sr st : String) (l r : Nat) (t : ResetTime)
    (hl : Limit.new sl = Except.ok ⟨l⟩) (hr : Remaining.new sr = Except.ok ⟨r⟩)
    (ht : ResetTime.new st ResetTimeKind.timestamp = Except.ok t) :
    Rfc6585.RateLimit.new (gitlabBlob sl so sr st)
      = Except.ok ⟨l, r, t, none, Vendor.standard⟩ := by
  have e1 : getRemainingHeader (gitlabBlob sl so sr st) = Except.ok sr := rfl
  have e2 : getRateLimitHeader (gitlabBlob sl so sr st)
      = Except.ok (sl, standardVariant) := rfl
  have e3 : getResetHeader (gitlabBlob sl so sr st)
      = Except.ok (st, ResetTimeKind.timestamp) := rfl
  simp only [Rfc6585.RateLimit.new, e1, hr, e2, hl, Rfc6585.finishWithReset,
    e3, ht]
  rfl

/-- Resolution of an Akamai-only blob: the limit and remaining scans hit
the Vimeo entry first, so the result is attributed to the Vimeo vendor,
while the reset header is decoded with Akamai's ISO 8601 kind. -/
theorem akamai_blob_eval (sl sr st : String) (l r : Nat) (t : ResetTime)
    (hl : Limit.new sl = Except.ok ⟨l⟩) (hr : Remaining.new sr = Except.ok ⟨r⟩)
    (ht : ResetTime.new st ResetTimeKind.iso8601 = Except.ok t) :
    Rfc6585.RateLimit.new (akamaiBlob sl sr st)
      = Except.ok ⟨l, r, t, some 60, Vendor.vimeo⟩ := by
  have e1 : getRemainingHeader (akamaiBlob sl sr st) = Except.ok sr := rfl
  have e2 : getRateLimitHeader (akamaiBlob sl sr st)
      = Except.ok (sl, vimeoVariant) := rfl
  have e3 : getResetHeader (akamaiBlob sl sr st)
      = Except.ok (st, ResetTimeKind.iso8601) := rfl
  simp only [Rfc6585.RateLimit.new, e1, hr, e2, hl, Rfc6585.finishWithReset,
    e3, ht]
  rfl

/-- Resolution of a Gitlab-style blob carrying only the observed header. -/
theorem gitlab_used_blob_eval (su sr st : String) (u r : Nat) (t : ResetTime)
    (hu : Used.new su = Except.ok ⟨u⟩) (hr : Remaining.new sr = Except.ok ⟨r⟩)
    (ht : ResetTime.new st ResetTimeKind.timestamp = Except.ok t) :
    Rfc6585.RateLimit.new (gitlabUsedBlob su sr st)
      = Except.ok ⟨(u + r) % USIZE, r, t, some 60, Vendor.gitlab⟩ := by
  have e1 : getRemainingHeader (gitlabUsedBlob su sr st) = Except.ok sr := rfl
  have e2 : getRateLimitHeader (gitlabUsedBlob su sr st)
      = Except.error Error.missingLimit := rfl
  have e3 : getUsedHeader (gitlabUsedBlob su sr st)
      = Except.ok (su, gitlabVariant) := rfl
  have e4 : getResetHeader (gitlabUsedBlob su sr st)
      = Except.ok (st, ResetTimeKind.timestamp) := rfl
  simp only [Rfc6585.RateLimit.new, e1, hr, e2, e3, hu,
    Rfc6585.finishWithReset, e4, ht]
  rfl

/-- Resolution of the three-vendor mixed blob: the remaining value comes
from Github's header, the limit value and the reported vendor from the
Standard entry, and the reset value and its Seconds kind from the Reddit
entry. -/
theorem mixed_blob_eval (sr sl st : String) (r l : Nat) (t : ResetTime)
    (hr : Remaining.new sr = Except.ok ⟨r⟩) (hl : Limit.new sl = Except.ok ⟨l⟩)
    (ht : ResetTime.new st ResetTimeKind.seconds = Except.ok t) :
    (RATE_LIMIT_HEADERS.find? fun v =>
      ((mixedBlob sr sl st).get v.remaining_header).isSome) = some githubVariant
    ∧ Rfc6585.RateLimit.new (mixedBlob sr sl st)
      = Except.ok ⟨l, r, t, none, Vendor.standard⟩ := by
  constructor
  · rfl
  · have e1 : getRemainingHeader (mixedBlob sr sl st) = Except.ok sr := rfl
    have e2 : getRateLimitHeader (mixedBlob sr sl st)
        = Except.ok (sl, standardVariant) := rfl
    have e3 : getResetHeader (mixedBlob sr sl st)
        = Except.ok (st, ResetTimeKind.seconds) := rfl
    simp only [Rfc6585.RateLimit.new, e1, hr, e2, hl, Rfc6585.finishWithReset,
      e3, ht]
    rfl

/-- C1: the claim that the resolver scopes the limit, used and reset
lookups to the variant matched by the remaining header is false.  In this
blob the first variant whose remaining header is present is Github, whose
limit header is absent and whose used header is unpopulated, so the claimed
algorithm would fail with MissingLimit; the code instead succeeds, taking
the limit and vendor from the Standard entry and the reset value and kind
from the Reddit entry. -/
theorem claim_c1_counterexample :
    (RATE_LIMIT_HEADERS.find? fun v =>
      ((mixedBlob "10" "60" "30").get v.remaining_header).isSome)
      = some githubVariant
    ∧ githubVariant.limit_header = some "x-ratelimit-limit"
    ∧ (mixedBlob "10" "60" "30").get "x-ratelimit-limit" = none
    ∧ githubVariant.used_header = none
    ∧ Rfc6585.RateLimit.new (mixedBlob "10" "60" "30")
      = Except.ok ⟨60, 10, ResetTime.seconds 30, none, Vendor.standard⟩ := by
  decide

/-- C1 (amended): the four lookups of the Structured-Header Resolver each
scan the registry independently, so a successful resolution may combine
the remaining header of one variant with the limit header of a second and
the reset header and reset encoding of a third; the reported vendor and
window are those of the variant that supplied the limit (or used) header.
For any values, a blob with Github's remaining header, Standard's limit
header and Reddit's reset header resolves with vendor Standard and with
the reset decoded by Reddit's Seconds encoding, even though the variant
matched by the remaining scan is Github. -/
theorem claim_c1_amended (sr sl st : String) (r l : Nat) (t : ResetTime)
    (hr : Remaining.new sr = Except.ok ⟨r⟩) (hl : Limit.new sl = Except.ok ⟨l⟩)
    (ht : ResetTime.new st ResetTimeKind.seconds = Except.ok t) :
    (RATE_LIMIT_HEADERS.find? fun v =>
      ((mixedBlob sr sl st).get v.remaining_header).isSome) = some githubVariant
    ∧ Rfc6585.RateLimit.new (mixedBlob sr sl st)
      = Except.ok ⟨l, r, t, none, Vendor.standard⟩ :=
  mixed_blob_eval sr sl st r l t hr hl ht

/-- C1 witness: concrete instance of the cross-variant combination. -/
theorem claim_c1_witness :
    (RATE_LIMIT_HEADERS.find? fun v =>
      ((mixedBlob "7" "99" "12").get v.remaining_header).isSome)
      = some githubVariant
    ∧ Rfc6585.RateLimit.new (mixedBlob "7" "99" "12")
      = Except.ok ⟨99, 7, ResetTime.seconds 12, none, Vendor.standard⟩ :=
  claim_c1_amended "7" "99" "12" 7 99 (ResetTime.seconds 12)
    (by decide) (by decide) (by decide)

/-- C2: the claim is false for the Gitlab blob of the concrete scenario:
the registry scan attributes it to the Standard vendor, because Standard's
limit header spelling equals Gitlab's, and the Standard entry comes first;
the numeric fields and the reset instant still decode as claimed. -/
theorem claim_c2_counterexample :
    Rfc6585.RateLimit.new (gitlabBlob "60" "67" "0" "1609844400")
      = Except.ok ⟨60, 0, ResetTime.dateTime 1609844400, none, Vendor.standard⟩
    ∧ Vendor.standard ≠ Vendor.gitlab := by
  decide

/-- C2 (amended): a blob containing exactly one variant's populated headers
with syntactically valid values resolves to that variant's vendor for the
Standard, Reddit, Github, Twitter and Vimeo entries; a Gitlab-only blob is
attributed to the Standard vendor (whose identical limit header is scanned
first) and an Akamai-only blob to the Vimeo vendor; in particular the blob
of the concrete scenario resolves to limit 60, remaining 0, reset at unix
time 1609844400, and vendor Standard. -/
theorem claim_c2_amended :
    (∀ sl sr st l r t, Limit.new sl = Except.ok ⟨l⟩ →
      Remaining.new sr = Except.ok ⟨r⟩ →
      ResetTime.new st ResetTimeKind.seconds = Except.ok t →
      Rfc6585.RateLimit.new (stdBlob sl sr st)
        = Except.ok ⟨l, r, t, none, Vendor.standard⟩)
    ∧ (∀ su sr st u r t, Used.new su = Except.ok ⟨u⟩ →
      Remaining.new sr = Except.ok ⟨r⟩ →
      ResetTime.new st ResetTimeKind.seconds = Except.ok t →
      Rfc6585.RateLimit.new (redditBlob su sr st)
        = Except.ok ⟨(u + r) % USIZE, r, t, some 600, Vendor.reddit⟩)
    ∧ (∀ sl sr st l r t, Limit.new sl = Except.ok ⟨l⟩ →
      Remaining.new sr = Except.ok ⟨r⟩ →
      ResetTime.new st ResetTimeKind.timestamp = Except.ok t →
      Rfc6585.RateLimit.new (githubBlob sl sr st)
        = Except.ok ⟨l, r, t, some 3600, Vendor.github⟩)
    ∧ (∀ sl sr st l r t, Limit.new sl = Except.ok ⟨l⟩ →
      Remaining.new sr = Except.ok ⟨r⟩ →
      ResetTime.new st ResetTimeKind.timestamp = Except.ok t →
      Rfc6585.RateLimit.new (twitterBlob sl sr st)
        = Except.ok ⟨l, r, t, some 900, Vendor.twitter⟩)
    ∧ (∀ sl sr st l r t, Limit.new sl = Except.ok ⟨l⟩ →
      Remaining.new sr = Except.ok ⟨r⟩ →
      ResetTime.new st ResetTimeKind.imfFixdate = Except.ok t →
      Rfc6585.RateLimit.new (vimeoBlob sl sr st)
        = Except.ok ⟨l, r, t, some 60, Vendor.vimeo⟩)
    ∧ (∀ sl so sr st l r t, Limit.new sl = Except.ok ⟨l⟩ →
      Remaining.new sr = Except.ok ⟨r⟩ →
      ResetTime.new st ResetTimeKind.timestamp = Except.ok t →
      Rfc6585.RateLimit.new (gitlabBlob sl so sr st)
        = Except.ok ⟨l, r, t, none, Vendor.standard⟩)
    ∧ (∀ sl sr st l r t, Limit.new sl = Except.ok ⟨l⟩ →
      Remaining.new sr = Except.ok ⟨r⟩ →
      ResetTime.new st ResetTimeKind.iso8601 = Except.ok t →
      Rfc6585.RateLimit.new (akamaiBlob sl sr st)
        = Except.ok ⟨l, r, t, some 60, Vendor.vimeo⟩)
    ∧ Rfc6585.RateLimit.new (gitlabBlob "60" "67" "0" "1609844400")
      = Except.ok
          ⟨60, 0, ResetTime.dateTime 1609844400, none, Vendor.standard⟩ :=
  ⟨fun sl sr st l r t hl hr ht => standard_blob_eval sl sr st l r t hl hr ht,
   fun su sr st u r t hu hr ht => reddit_blob_eval su sr st u r t hu hr ht,
   fun sl sr st l r t hl hr ht => github_blob_eval sl sr st l r t hl hr ht,
   fun sl sr st l r t hl hr ht => twitter_blob_eval sl sr st l r t hl hr ht,
   fun sl sr st l r t hl hr ht => vimeo_blob_eval sl sr st l r t hl hr ht,
   fun sl so sr st l r t hl hr ht =>
     gitlab_blob_eval sl so sr st l r t hl hr ht,
   fun sl sr st l r t hl hr ht => akamai_blob_eval sl sr st l r t hl hr ht,
   by decide⟩

/-- C2 witness: one concrete blob per registry entry. -/
theorem claim_c2_witness :
    Rfc6585.RateLimit.new (stdBlob "60" "2" "3")
      = Except.ok ⟨60, 2, ResetTime.seconds 3, none, Vendor.standard⟩
    ∧ Rfc6585.RateLimit.new (redditBlob "100" "22" "30")
      = Except.ok ⟨122, 22, ResetTime.seconds 30, some 600, Vendor.reddit⟩
    ∧ Rfc6585.RateLimit.new (githubBlob "5000" "4987" "1350085394")
      = Except.ok
          ⟨5000, 4987, ResetTime.dateTime 1350085394, some 3600, Vendor.github⟩
    ∧ Rfc6585.RateLimit.new (twitterBlob "100" "10" "1350085394")
      = Except.ok
          ⟨100, 10, ResetTime.dateTime 1350085394, some 900, Vendor.twitter⟩
    ∧ Rfc6585.RateLimit.new (vimeoBlob "100" "10" "Tue, 15 Nov 1994 08:12:31 GMT")
      = Except.ok ⟨100, 10, ResetTime.dateTime 784887151, some 60, Vendor.vimeo⟩
    ∧ Rfc6585.RateLimit.new (gitlabBlob "60" "67" "0" "1609844400")
      = Except.ok ⟨60, 0, ResetTime.dateTime 1609844400, none, Vendor.standard⟩
    ∧ Rfc6585.RateLimit.new (akamaiBlob "60" "5" "20220117T100000Z")
      = Except.ok ⟨60, 5, ResetTime.dateTime 1642413600, some 60, Vendor.vimeo⟩ :=
  ⟨claim_c2_amended.1 "60" "2" "3" 60 2 (ResetTime.seconds 3)
      (by decide) (by decide) (by decide),
   claim_c2_amended.2.1 "100" "22" "30" 100 22 (ResetTime.seconds 30)
      (by decide) (by decide) (by decide),
   claim_c2_amended.2.2.1 "5000" "4987" "1350085394" 5000 4987
      (ResetTime.dateTime 1350085394) (by decide) (by decide) (by decide),
   claim_c2_amended.2.2.2.1 "100" "10" "1350085394" 100 10
      (ResetTime.dateTime 1350085394) (by decide) (by decide) (by decide),
   claim_c2_amended.2.2.2.2.1 "100" "10" "Tue, 15 Nov 1994 08:12:31 GMT"
      100 10 (ResetTime.dateTime 784887151) (by decide) (by decide) (by decide),
   claim_c2_amended.2.2.2.2.2.1 "60" "67" "0" "1609844400" 60 0
      (ResetTime.dateTime 1609844400) (by decide) (by decide) (by decide),
   claim_c2_amended.2.2.2.2.2.2.1 "60" "5" "20220117T100000Z" 60 5
      (ResetTime.dateTime 1642413600) (by decide) (by decide) (by decide)⟩

/-- C7: the claim is false as to the error kind: when no variant's limit
header and no variant's used header is present while a remaining header
is, resolution fails with MissingUsed, not MissingLimit. -/
theorem claim_c7_counterexample :
    Rfc6585.RateLimit.new
      ⟨[("x-ratelimit-remaining", "10"), ("x-ratelimit-reset", "99")]⟩
      = Except.error Error.missingUsed
    ∧ Error.missingUsed ≠ Error.missingLimit := by
  decide

/-- C7 (amended): if the remaining lookup succeeds and parses while both
the limit scan and the used scan fail, structured resolution fails with
the MissingUsed error. -/
theorem claim_c7_amended (m : CaseSensitiveHeaderMap) (sr : String)
    (r : Remaining)
    (h1 : getRemainingHeader m = Except.ok sr)
    (h2 : Remaining.new sr = Except.ok r)
    (h3 : getRateLimitHeader m = Except.error Error.missingLimit)
    (h4 : getUsedHeader m = Except.error Error.missingUsed) :
    Rfc6585.RateLimit.new m = Except.error Error.missingUsed := by
  simp only [Rfc6585.RateLimit.new, h1, h2, h3, h4]

/-- C7 witness: a blob with only Github's remaining and reset headers. -/
theorem claim_c7_witness :
    Rfc6585.RateLimit.new
      ⟨[("x-ratelimit-remaining", "10"), ("x-ratelimit-reset", "99")]⟩
      = Except.error Error.missingUsed :=
  claim_c7_amended
    ⟨[("x-ratelimit-remaining", "10"), ("x-ratelimit-reset", "99")]⟩
    "10" ⟨10⟩ (by decide) (by decide) (by decide) (by decide)

/-- C8: the claim quantifies over all non-negative integers, but used and
remaining values are parsed as 64-bit usize and added in usize; at
u = 2 ^ 64 (and r = 1) the used header no longer parses and resolution
fails instead of producing limit u + r. -/
theorem claim_c8_counterexample :
    Rfc6585.RateLimit.new
      (redditBlob "18446744073709551616" "1" "30")
      = Except.error Error.invalidValue := by
  decide

/-- C8 (amended): for all u and r representable as usize whose sum is also
representable, a blob supplying only a used header with value u for a
variant that supports one (Reddit, and Gitlab via its observed header),
plus a remaining header with value r and a valid reset header, resolves to
limit u + r exactly. -/
theorem claim_c8_amended :
    (∀ su sr st u r t, Used.new su = Except.ok ⟨u⟩ →
      Remaining.new sr = Except.ok ⟨r⟩ →
      ResetTime.new st ResetTimeKind.seconds = Except.ok t →
      u + r < USIZE →
      Rfc6585.RateLimit.new (redditBlob su sr st)
        = Except.ok ⟨u + r, r, t, some 600, Vendor.reddit⟩)
    ∧ (∀ su sr st u r t, Used.new su = Except.ok ⟨u⟩ →
      Remaining.new sr = Except.ok ⟨r⟩ →
      ResetTime.new st ResetTimeKind.timestamp = Except.ok t →
      u + r < USIZE →
      Rfc6585.RateLimit.new (gitlabUsedBlob su sr st)
        = Except.ok ⟨u + r, r, t, some 60, Vendor.gitlab⟩) := by
  constructor
  · intro su sr st u r t hu hr ht hs
    have h := reddit_blob_eval su sr st u r t hu hr ht
    rwa [Nat.mod_eq_of_lt hs] at h
  · intro su sr st u r t hu hr ht hs
    have h := gitlab_used_blob_eval su sr st u r t hu hr ht
    rwa [Nat.mod_eq_of_lt hs] at h

/-- C8 witness: the derived limit on concrete Reddit and Gitlab blobs. -/
theorem claim_c8_witness :
    Rfc6585.RateLimit.new (redditBlob "100" "22" "30")
      = Except.ok ⟨100 + 22, 22, ResetTime.seconds 30, some 600, Vendor.reddit⟩
    ∧ Rfc6585.RateLimit.new (gitlabUsedBlob "67" "0" "1609844400")
      = Except.ok
          ⟨67 + 0, 0, ResetTime.dateTime 1609844400, some 60, Vendor.gitlab⟩ :=
  ⟨claim_c8_amended.1 "100" "22" "30" 100 22 (ResetTime.seconds 30)
      (by decide) (by decide) (by decide) (by decide),
   claim_c8_amended.2 "67" "0" "1609844400" 67 0
      (ResetTime.dateTime 1609844400)
      (by decide) (by decide) (by decide) (by decide)⟩

/-- The reset-time decoder only fails with the value, date-parse or range
errors; it never produces MissingRetryAfter. -/
theorem resetTime_new_ne_missingRetryAfter (v : String) (k : ResetTimeKind) :
    ResetTime.new v k ≠ Except.error Error.missingRetryAfter := by
  cases k with
  | seconds =>
    rcases hp : parseUsize (rustTrim v) with _ | n <;>
      simp [ResetTime.new, toUsize, hp]
  | timestamp =>
    rcases hp : parseI64 (rustTrim v) with _ | t
    · simp [ResetTime.new, toI64, hp]
    · rcases ho : odtFromUnix t with _ | d <;>
        simp [ResetTime.new, toI64, hp, ho]
  | imfFixdate =>
    rcases hp : rfc2822ToUnix v with _ | t <;> simp [ResetTime.new, hp]
  | iso8601 =>
    rcases hp : iso8601ToUnix v with _ | t <;> simp [ResetTime.new, hp]

/-- The present-value branch of the Retry-After resolver never produces
MissingRetryAfter. -/
theorem retry_branch_ne_missingRetryAfter (v : String) :
    (if (rfc2822ToUnix v).isSome then
      match ResetTime.new v ResetTimeKind.imfFixdate with
      | Except.ok reset => Except.ok (⟨reset⟩ : RetryAfter.RateLimit)
      | Except.error e => Except.error e
    else
      match ResetTime.new v ResetTimeKind.seconds with
      | Except.ok reset => Except.ok (⟨reset⟩ : RetryAfter.RateLimit)
      | Except.error e => Except.error e)
      ≠ Except.error Error.missingRetryAfter := by
  split
  · cases hres : ResetTime.new v ResetTimeKind.imfFixdate with
    | ok r => simp
    | error e =>
      have hne := resetTime_new_ne_missingRetryAfter v ResetTimeKind.imfFixdate
      rw [hres] at hne
      simpa using hne
  · cases hres : ResetTime.new v ResetTimeKind.seconds with
    | ok r => simp
    | error e =>
      have hne := resetTime_new_ne_missingRetryAfter v ResetTimeKind.seconds
      rw [hres] at hne
      simpa using hne

/-- C5: the claim that only the canonical capitalization Retry-After is
consulted is false: a store holding only the all-lowercase spelling still
resolves, although the canonical header is absent. -/
theorem claim_c5_counterexample :
    (⟨[("retry-after", "19")]⟩ : CaseSensitiveHeaderMap).get "Retry-After"
      = none
    ∧ RetryAfter.RateLimit.new ⟨[("retry-after", "19")]⟩
      = Except.ok ⟨ResetTime.seconds 19⟩ := by
  decide

/-- C5 (amended): the Retry-After resolver first looks up the canonical
capitalization Retry-After and then falls back to the all-lowercase
spelling retry-after, both with case-sensitive exact matches; it fails
with MissingRetryAfter exactly when both spellings are absent. -/
theorem claim_c5_amended (m : CaseSensitiveHeaderMap) :
    RetryAfter.RateLimit.new m = Except.error Error.missingRetryAfter
      ↔ m.get "Retry-After" = none ∧ m.get "retry-after" = none := by
  constructor
  · intro h
    cases h1 : m.get "Retry-After" with
    | some v =>
      exfalso
      unfold RetryAfter.RateLimit.new getRetryAfterHeader at h
      rw [h1] at h
      simp only [Option.orElse] at h
      exact retry_branch_ne_missingRetryAfter v h
    | none =>
      cases h2 : m.get "retry-after" with
      | some v =>
        exfalso
        unfold RetryAfter.RateLimit.new getRetryAfterHeader at h
        rw [h1, h2] at h
        simp only [Option.orElse] at h
        exact retry_branch_ne_missingRetryAfter v h
      | none => exact ⟨rfl, rfl⟩
  · intro ⟨h1, h2⟩
    unfold RetryAfter.RateLimit.new getRetryAfterHeader
    rw [h1, h2]
    rfl

/-- C5 witness: the missing-header characterization on an empty store. -/
theorem claim_c5_witness :
    RetryAfter.RateLimit.new ⟨[]⟩ = Except.error Error.missingRetryAfter
      ↔ (⟨[]⟩ : CaseSensitiveHeaderMap).get "Retry-After" = none
        ∧ (⟨[]⟩ : CaseSensitiveHeaderMap).get "retry-after" = none :=
  claim_c5_amended ⟨[]⟩

/-- C6: the claim names the wrong error: when the Retry-After value matches
neither the RFC 2822 grammar nor the seconds grammar, the resolver fails
with the integer-parse error InvalidValue; the InvalidRetryAfter error is
never produced. -/
theorem claim_c6_counterexample :
    RetryAfter.RateLimit.new ⟨[("Retry-After", "foo")]⟩
      = Except.error Error.invalidValue
    ∧ Error.invalidValue ≠ Error.invalidRetryAfter "foo" := by
  decide

/-- C6 (amended): when a Retry-After value is present the resolver first
attempts RFC 2822 date decoding; on success the reset is that instant; on
failure it falls back to seconds decoding; and when both decodings fail it
fails with the InvalidValue integer-parse error. -/
theorem claim_c6_amended (m : CaseSensitiveHeaderMap) (v : String)
    (hv : getRetryAfterHeader m = some v) :
    (∀ t, rfc2822ToUnix v = some t →
      RetryAfter.RateLimit.new m = Except.ok ⟨ResetTime.dateTime t⟩)
    ∧ (rfc2822ToUnix v = none → ∀ n, parseUsize (rustTrim v) = some n →
      RetryAfter.RateLimit.new m = Except.ok ⟨ResetTime.seconds n⟩)
    ∧ (rfc2822ToUnix v = none → parseUsize (rustTrim v) = none →
      RetryAfter.RateLimit.new m = Except.error Error.invalidValue) := by
  refine ⟨?_, ?_, ?_⟩
  · intro t hdate
    simp only [RetryAfter.RateLimit.new, hv, ResetTime.new, hdate,
      Option.isSome, if_true]
  · intro hdate n hn
    simp only [RetryAfter.RateLimit.new, hv, ResetTime.new, toUsize, hdate,
      hn, Option.isSome, Bool.false_eq_true, if_false]
  · intro hdate hn
    simp only [RetryAfter.RateLimit.new, hv, ResetTime.new, toUsize, hdate,
      hn, Option.isSome, Bool.false_eq_true, if_false]

/-- C6 witness: a date value, a seconds value and a value matching neither
grammar. -/
theorem claim_c6_witness :
    RetryAfter.RateLimit.new ⟨[("Retry-After", "Fri, 31 Dec 1999 23:59:59 GMT")]⟩
      = Except.ok ⟨ResetTime.dateTime 946684799⟩
    ∧ RetryAfter.RateLimit.new ⟨[("Retry-After", "20")]⟩
      = Except.ok ⟨ResetTime.seconds 20⟩
    ∧ RetryAfter.RateLimit.new ⟨[("Retry-After", "foo")]⟩
      = Except.error Error.invalidValue :=
  ⟨(claim_c6_amended ⟨[("Retry-After", "Fri, 31 Dec 1999 23:59:59 GMT")]⟩
      "Fri, 31 Dec 1999 23:59:59 GMT" (by decide)).1 946684799 (by decide),
   (claim_c6_amended ⟨[("Retry-After", "20")]⟩ "20" (by decide)).2.1
      (by decide) 20 (by decide),
   (claim_c6_amended ⟨[("Retry-After", "foo")]⟩ "foo" (by decide)).2.2
      (by decide) (by decide)⟩

/-- C4: when both resolvers succeed, the combined result is the candidate
with the larger seconds-remaining value at the current instant; on the
Reddit blob with structured reset 30 and Retry-After 20 the combined
result is the structured one with reset Seconds 30, and with structured
reset 15 against Retry-After 20 it is the Retry-After one with reset
Seconds 20. -/
theorem claim_c4_combined :
    (∀ m now a b, Rfc6585.RateLimit.new m = Except.ok a →
      RetryAfter.RateLimit.new m = Except.ok b →
      ∃ c, CombinedRateLimit.new m now = Except.ok c
        ∧ ResetTime.secondsAt c.reset now
          = max (ResetTime.secondsAt a.reset now)
              (ResetTime.secondsAt b.reset now))
    ∧ (∀ now, CombinedRateLimit.new (combinedBlob "30" "20") now
      = Except.ok (CombinedRateLimit.rfc6585
          ⟨122, 22, ResetTime.seconds 30, some 600, Vendor.reddit⟩))
    ∧ (∀ now, CombinedRateLimit.new (combinedBlob "15" "20") now
      = Except.ok (CombinedRateLimit.retryAfter ⟨ResetTime.seconds 20⟩)) := by
  refine ⟨?_, ?_, ?_⟩
  · intro m now a b ha hb
    simp only [CombinedRateLimit.new, ha, hb]
    by_cases hc : ResetTime.secondsAt a.reset now
        < ResetTime.secondsAt b.reset now
    · rw [if_pos hc]
      exact ⟨_, rfl, by simp only [CombinedRateLimit.reset]; omega⟩
    · rw [if_neg hc]
      exact ⟨_, rfl, by simp only [CombinedRateLimit.reset]; omega⟩
  · intro now
    rfl
  · intro now
    rfl

/-- C4 witness: the larger-wins rule instantiated on the precedence
scenario blob. -/
theorem claim_c4_witness :
    ∃ c, CombinedRateLimit.new (combinedBlob "30" "20") 0 = Except.ok c
      ∧ ResetTime.secondsAt c.reset 0 = 30 :=
  claim_c4_combined.1 (combinedBlob "30" "20") 0
    ⟨122, 22, ResetTime.seconds 30, some 600, Vendor.reddit⟩
    ⟨ResetTime.seconds 20⟩ (by decide) (by decide)

end RateLimits
